import Mathlib

/-!
Verification of the `coin` multi-asset spot-trading engine.

This file gives a shallow embedding, over `ℚ`, of the decision-and-control
core of the repository: the adaptive tuner (`src/learner/online_learner.py`),
the two signal evaluators (`src/strategy/scalping_strategy.py`,
`src/strategy/reversal_strategy.py`) and the central manager
(`src/strategy_manager.py`).  Python floats are modelled as exact rationals,
`None`-able attributes as `Option ℚ`, dicts holding the per-symbol records as
a function `Sym → Option CoinData`, and every network call (ticker, balance,
order placement, Telegram) as an explicit oracle argument with the same
empty-on-failure sentinel shape as `src/connector/exchange_base.py`.
-/

namespace Coin

/-! ## Adaptive tuner (`src/learner/online_learner.py`, `src/learner/schema.py`) -/

/-- `TradeParams` from `src/learner/schema.py`: the value bundle the tuner
suggests.  `rsi_buy_threshold` is an `int` field in the pydantic model. -/
structure TradeParams where
  k : ℚ
  rsi_buy_threshold : ℤ
  stop_loss_pct : ℚ
  take_profit_pct : ℚ
  volume_multiplier : ℚ
deriving Repr, DecidableEq

/-- Sum of a list of rationals. -/
def qsum (l : List ℚ) : ℚ := l.foldl (fun a b => a + b) 0

namespace OnlineLearner

/-- The parameters installed by `OnlineLearner.__init__`
(`online_learner.py` lines 31-37); `self.current_params` is never
reassigned anywhere in the source, so these are the current defaults in
every reachable state. -/
def initParams : TradeParams :=
  { k := 0.5, rsi_buy_threshold := 30, stop_loss_pct := 0.005,
    take_profit_pct := 0.015, volume_multiplier := 1.3 }

/-- `OnlineLearner._adjust_params_based_on_performance`
(`online_learner.py` lines 57-90), as a pure function of the performance
window `recent_pnl` and the current defaults.  `model_copy()` followed by
field assignments is the record update `{ current with ... }`. -/
def adjust_params_based_on_performance (recent_pnl : List ℚ)
    (current : TradeParams) : TradeParams :=
  if recent_pnl.isEmpty then current
  else
    let profits := recent_pnl.filter (fun p => p > 0)
    let losses := recent_pnl.filter (fun p => p ≤ 0)
    let win_rate : ℚ := (profits.length : ℚ) / (recent_pnl.length : ℚ)
    let avg_profit : ℚ :=
      if profits.isEmpty then 0 else qsum profits / (profits.length : ℚ)
    let avg_loss : ℚ :=
      if losses.isEmpty then 0.001 else |qsum losses / (losses.length : ℚ)|
    let profit_factor : ℚ :=
      if ¬losses.isEmpty ∧ qsum losses ≠ 0 then qsum profits / |qsum losses| else 2
    let expected_value : ℚ := win_rate * avg_profit - (1 - win_rate) * avg_loss
    if expected_value < 0 ∨ profit_factor < 1.1 then
      { current with
        k := min 0.85 (current.k + 0.05),
        rsi_buy_threshold := max 20 (current.rsi_buy_threshold - 2),
        volume_multiplier := min 1.8 (current.volume_multiplier + 0.1),
        stop_loss_pct := max 0.005 (current.stop_loss_pct - 0.001) }
    else if profit_factor > 1.5 ∧ expected_value > 0.002 then
      { current with
        k := max 0.35 (current.k - 0.03),
        rsi_buy_threshold := min 35 (current.rsi_buy_threshold + 2),
        volume_multiplier := max 1.5 (current.volume_multiplier - 0.2) }
    else current

/-- Mutable state of `OnlineLearner`: the bounded performance window and the
current default parameters. -/
structure State where
  recent_pnl : List ℚ
  current_params : TradeParams
deriving Repr, DecidableEq

/-- `OnlineLearner._calculate_confidence` (`online_learner.py` lines 92-96). -/
def calculate_confidence (s : State) : ℚ :=
  if s.recent_pnl.isEmpty then 0.5
  else ((s.recent_pnl.filter (fun p => p > 0)).length : ℚ) / (s.recent_pnl.length : ℚ)

/-- `OnlineLearner.predict` (`online_learner.py` lines 42-55) in
state-passing form: it reads the state, returns the (possibly identical)
state together with the suggested parameters and the confidence score.  The
source mutates nothing here: `_adjust_params_based_on_performance` works on a
`model_copy()` and `self.current_params` / `self.recent_pnl` are not written. -/
def predict (s : State) : State × TradeParams × ℚ :=
  (s, adjust_params_based_on_performance s.recent_pnl s.current_params,
   calculate_confidence s)

/-- One step of `OnlineLearner._training_loop` (`online_learner.py`
lines 102-117): append the realized pnl to the `deque(maxlen=50)` window,
evicting the oldest entry once 50 are held. -/
def trainingStep (s : State) (pnl : ℚ) : State :=
  let l := s.recent_pnl ++ [pnl]
  { s with recent_pnl := if 50 < l.length then l.drop (l.length - 50) else l }

end OnlineLearner

/-! ## Claims C9 and C10 (adaptive tuner) -/

/-- C9: the adaptive tuner's suggestion is idempotent and side-effect free:
`predict` leaves the learner state (performance window and stored current
defaults) unchanged, two calls with no intervening feedback return the same
`TradeParams`, and an empty window yields exactly the unmodified current
defaults. -/
theorem predict_idempotent_and_pure (s : OnlineLearner.State) :
    (OnlineLearner.predict s).1 = s
    ∧ (OnlineLearner.predict (OnlineLearner.predict s).1).2.1
        = (OnlineLearner.predict s).2.1
    ∧ (s.recent_pnl = [] → (OnlineLearner.predict s).2.1 = s.current_params) := by
  refine ⟨rfl, rfl, fun h => ?_⟩
  simp [OnlineLearner.predict, OnlineLearner.adjust_params_based_on_performance, h]

/-- Witness for C9: the theorem applied at the freshly initialized learner
state, whose window is empty. -/
theorem predict_idempotent_and_pure_witness :
    (OnlineLearner.predict ⟨[], OnlineLearner.initParams⟩).1
        = ⟨[], OnlineLearner.initParams⟩
    ∧ (OnlineLearner.predict ⟨[], OnlineLearner.initParams⟩).2.1
        = OnlineLearner.initParams :=
  ⟨(predict_idempotent_and_pure ⟨[], OnlineLearner.initParams⟩).1,
   (predict_idempotent_and_pure ⟨[], OnlineLearner.initParams⟩).2.2 rfl⟩

/-- C10 (code evidence): in the loosen regime the suggested
`volume_multiplier` EXCEEDS the current default.  With the initial defaults
(volume multiplier `1.3`) and a window holding one winning trade `+0.01`
(profit factor `2 > 1.5`, expected value `0.01 > 0.002`, so the loosen branch
of `_adjust_params_based_on_performance` fires), the suggestion is
`max 1.5 (1.3 - 0.2) = 1.5 > 1.3`: the clamp floor `1.5` lies strictly above
the only value `current_params.volume_multiplier` ever takes, so "loosening"
raises the volume-spike requirement, contradicting the claimed monotone move
toward looser entry. -/
theorem loosen_raises_volume_multiplier :
    OnlineLearner.adjust_params_based_on_performance [0.01] OnlineLearner.initParams
      = { k := 0.47, rsi_buy_threshold := 32, stop_loss_pct := 0.005,
          take_profit_pct := 0.015, volume_multiplier := 1.5 }
    ∧ OnlineLearner.initParams.volume_multiplier
        < (OnlineLearner.adjust_params_based_on_performance [0.01]
            OnlineLearner.initParams).volume_multiplier := by
  constructor
  · norm_num [OnlineLearner.adjust_params_based_on_performance, qsum,
      List.filter, OnlineLearner.initParams]
  · norm_num [OnlineLearner.adjust_params_based_on_performance, qsum,
      List.filter, OnlineLearner.initParams]

/-! ## Reversal strategy (`src/strategy/reversal_strategy.py`) -/

namespace ReversalStrategy

/-- Mutable state of `ReversalStrategy` relevant to exit checking.
`bb_middle` is `None` before the first indicator update; `check_signal` may
rescale `take_profit_pct` / `stop_loss_pct` from the ATR, so the exit check
is stated over arbitrary field values (a superset of the reachable ones).
`fee_rate` is the fixed `0.0005` from `__init__`. -/
structure State where
  stop_loss_pct : ℚ
  take_profit_pct : ℚ
  bb_middle : Option ℚ
deriving Repr, DecidableEq

/-- The `__init__` values: `stop_loss_pct = 0.007`, `take_profit_pct = 0.015`,
`bb_middle = None`. -/
def init : State := { stop_loss_pct := 0.007, take_profit_pct := 0.015, bb_middle := none }

/-- `ReversalStrategy.check_exit_signal` (`reversal_strategy.py` lines
75-89).  The exit reasons are the string tags the source returns.  The
`bb_middle` truthiness test `if self.bb_middle and ...` is false for both
`None` and `0.0`. -/
def check_exit_signal (st : State) (entry_price current_price : ℚ) :
    Option String :=
  let raw_pnl := (current_price - entry_price) / entry_price
  let net_pnl := raw_pnl - 0.0005 * 2
  if net_pnl ≥ st.take_profit_pct then some "REV_TP"
  else if net_pnl ≤ -st.stop_loss_pct then some "REV_SL"
  else if net_pnl ≥ 0.006 ∧ net_pnl ≤ 0.003 then some "REV_BE"
  else
    match st.bb_middle with
    | some m =>
        if m ≠ 0 ∧ current_price ≥ m ∧ net_pnl > 0.002 then some "REV_BB_EXIT"
        else none
    | none => none

end ReversalStrategy

/-! ## Claim C8 (reversal breakeven branch) -/

/-- C8 (code evidence): the breakeven branch of
`ReversalStrategy.check_exit_signal` is unreachable.  Its guard demands
`net_pnl >= 0.006` and `net_pnl <= 0.003` simultaneously — an empty
condition (the strategy also tracks no post-entry peak, so "once reached a
minor profit threshold" has no state to read) — hence `"REV_BE"` is never
returned, for any field values and any pair of prices. -/
theorem reversal_breakeven_unreachable (st : ReversalStrategy.State)
    (entry_price current_price : ℚ) :
    ReversalStrategy.check_exit_signal st entry_price current_price
      ≠ some "REV_BE" := by
  have key : ∀ x : ℚ, ¬(x ≥ 0.006 ∧ x ≤ 0.003) := by
    intro x hx
    have h6 := le_trans hx.1 hx.2
    norm_num at h6
  unfold ReversalStrategy.check_exit_signal
  cases hb : st.bb_middle <;> simp only [hb] <;> split_ifs with h1 h2 h3 <;>
    first
      | exact absurd h3 (key _)
      | simp

/-! ## Indicator arithmetic (pandas expressions used by the strategies)

The strategies compute indicators with pandas rolling windows and take the
last entry (`.iloc[-1]`).  Under the guard `len(ohlcv) >= 30` every window
below is full, so `.rolling(n).mean().iloc[-1]` is the plain mean of the last
`n` entries; the leading-`NaN` entries of `diff()` / the true-range column
never fall inside those windows. -/

/-- One OHLCV bar; `t` is the epoch-millisecond timestamp. -/
structure Candle where
  t : ℚ
  o : ℚ
  h : ℚ
  l : ℚ
  c : ℚ
  v : ℚ
deriving Repr, DecidableEq

/-- Last `n` entries of a list (a full trailing rolling window). -/
def lastN (n : ℕ) (l : List ℚ) : List ℚ := l.drop (l.length - n)

/-- Mean of a list (denominator is the list length). -/
def qmean (l : List ℚ) : ℚ := qsum l / (l.length : ℚ)

/-- `Series.diff()` without its leading `NaN`: consecutive differences. -/
def diffs (l : List ℚ) : List ℚ := (l.zip l.tail).map (fun p => p.2 - p.1)

/-- The close column. -/
def closes (l : List Candle) : List ℚ := l.map (fun cd => cd.c)

/-- The naive rolling-mean RSI used by both strategies:
`100 - 100/(1 + gain/loss)` with `gain`/`loss` the 14-bar rolling means of
the positive/negative close-to-close deltas.  `none` covers the float `NaN`
case `gain = loss = 0` (pandas `0/0`); `loss = 0 < gain` gives `+inf` in the
ratio and hence RSI `100`. -/
def rsiLast (cs : List ℚ) : Option ℚ :=
  let ds := diffs cs
  let gain := qmean (lastN 14 (ds.map (fun d => if d > 0 then d else 0)))
  let loss := qmean (lastN 14 (ds.map (fun d => if d < 0 then -d else 0)))
  if loss = 0 then (if gain = 0 then none else some 100)
  else some (100 - 100 / (1 + gain / loss))

/-- `close.rolling(n).mean().iloc[-1]`. -/
def maLast (n : ℕ) (cs : List ℚ) : ℚ := qmean (lastN n cs)

/-- `tr.rolling(20).mean().iloc[-1]` where
`tr = max(high-low, |high-prevclose|, |low-prevclose|)`
(`scalping_strategy.py` lines 70-73); the first bar's `NaN` true range is
outside the 20-bar window because the caller guarantees at least 30 bars. -/
def atrLast20 (l : List Candle) : ℚ :=
  qmean (lastN 20 ((l.zip l.tail).map (fun p =>
    max (p.2.h - p.2.l) (max |p.2.h - p.1.c| |p.2.l - p.1.c|))))

/-- `volume.iloc[-1] / volume.iloc[-6:-1].mean()` guarded by
`avg_vol > 0`, else `1.0` (`scalping_strategy.py` lines 76-77). -/
def volRatioLast (l : List Candle) : ℚ :=
  let vols := l.map (fun cd => cd.v)
  let avg_vol := qmean (lastN 5 vols.dropLast)
  if avg_vol > 0 then (vols.getLast?.getD 0) / avg_vol else 1

/-- UTC calendar day of an epoch-millisecond timestamp
(`pd.to_datetime(..., unit=ms).dt.date`). -/
def dayOf (t : ℚ) : ℤ := Int.floor (t / 86400000)

/-- Session VWAP (`scalping_strategy.py` lines 54-59): cumulative
`typical-price × volume` over cumulative volume within the calendar-day
group of the last bar, read at the last row.  `none` covers the unset field
and the `NaN`/`inf` of a zero cumulative volume. -/
def vwapLast (l : List Candle) : Option ℚ :=
  match l.getLast? with
  | none => none
  | some lastC =>
      let ses := l.filter (fun cd => dayOf cd.t == dayOf lastC.t)
      let cum_vol := qsum (ses.map (fun cd => cd.v))
      if cum_vol = 0 then none
      else some (qsum (ses.map (fun cd => ((cd.h + cd.l + cd.c) / 3) * cd.v)) / cum_vol)

/-- `Series.ewm(span=s).mean().iloc[-1]` with the default `adjust=True`:
a `(1-α)`-weighted average of the whole series, `α = 2/(s+1)`. -/
def emaLast (span : ℚ) (xs : List ℚ) : ℚ :=
  let a : ℚ := 2 / (span + 1)
  let p := xs.foldl
    (fun (nd : ℚ × ℚ) x => ((1 - a) * nd.1 + x, (1 - a) * nd.2 + 1)) (0, 0)
  p.1 / p.2

/-- Comparison of two possibly-unset floats; a Python comparison against
`None` raises and the caller catches it as "no signal", so `false` is the
observable outcome for unset operands. -/
def optGt (a b : Option ℚ) : Bool :=
  match a, b with
  | some x, some y => decide (x > y)
  | _, _ => false

/-! ## Scalping ("trend") strategy (`src/strategy/scalping_strategy.py`) -/

namespace ScalpingStrategy

/-- Mutable state of `ScalpingStrategy`.  Fields that start out as Python
`None` are `Option ℚ`; `entry_atr` is `Option` because `check_signal` copies
the possibly-unset `self.atr` into it.  The constants `fee_rate = 0.0005`
and `max_holding_minutes = 10` are inlined where used. -/
structure State where
  rsi : Option ℚ
  ma_5 : Option ℚ
  ma_20 : Option ℚ
  volume_ratio : ℚ
  vwap : Option ℚ
  atr : Option ℚ
  is_15m_uptrend : Bool
  rsi_15m : Option ℚ
  max_price : ℚ
  is_trailing : Bool
  entry_atr : Option ℚ
deriving Repr, DecidableEq

/-- `ScalpingStrategy.__init__` (lines 20-40). -/
def init : State :=
  { rsi := none, ma_5 := none, ma_20 := none, volume_ratio := 1,
    vwap := none, atr := none, is_15m_uptrend := false, rsi_15m := some 50,
    max_price := 0, is_trailing := false, entry_atr := some 0 }

/-- `ScalpingStrategy.reset_trailing_state` (lines 42-45). -/
def reset_trailing_state (st : State) : State :=
  { st with max_price := 0, is_trailing := false, entry_atr := some 0 }

/-- `ScalpingStrategy.update_indicators` (lines 47-92).  The second
parameter defaults to `None` in the source; `StrategyManager` always calls
it with one argument.  Fewer than 30 one-minute bars: no update at all.
The 15-minute block runs only when a 15m series with at least 20 bars is
supplied, and it alone writes `is_15m_uptrend` and `rsi_15m`. -/
def update_indicators (st : State) (ohlcv_1m : List Candle)
    (ohlcv_15m : Option (List Candle)) : State :=
  if ohlcv_1m.length < 30 then st
  else
    let cs := closes ohlcv_1m
    let st1 := { st with
      vwap := vwapLast ohlcv_1m,
      rsi := rsiLast cs,
      ma_5 := some (maLast 5 cs),
      ma_20 := some (maLast 20 cs),
      atr := some (atrLast20 ohlcv_1m),
      volume_ratio := volRatioLast ohlcv_1m }
    match ohlcv_15m with
    | some l15 =>
        if 20 ≤ l15.length then
          let cs15 := closes l15
          let r15 := rsiLast cs15
          { st1 with
            rsi_15m := r15,
            is_15m_uptrend :=
              decide (emaLast 9 cs15 > emaLast 21 cs15)
                || (match r15 with | some r => decide (r > 55) | none => false) }
        else st1
    | none => st1

/-- `ScalpingStrategy.check_signal` (lines 102-122) on the ticker's `last`
price.  Successful entry mutates the trailing state
(`reset_trailing_state` then `max_price := price`, `entry_atr := atr`), so
the result carries the new state.  The volume condition is the hardcoded
strict `volume_ratio > 1.3` of line 112; the function takes no
override/`ai_pred` parameter. -/
def check_signal (st : State) (last : ℚ) : State × Bool :=
  match st.rsi, st.vwap with
  | some r, some vw =>
      if !st.is_15m_uptrend then (st, false)
      else
        let cond_main := decide (last > vw) && optGt st.ma_5 st.ma_20
        let cond_rsi := decide (45 < r) && decide (r < 65)
        let cond_vol := decide (st.volume_ratio > 1.3)
        if cond_main && cond_rsi && cond_vol then
          ({ st with
              max_price := last
              is_trailing := false
              entry_atr := st.atr }, true)
        else (st, false)
  | _, _ => (st, false)

/-- `ScalpingStrategy.check_exit_signal` (lines 124-164).  Times are in
seconds.  Exit tags keep the source's prefixes, dropping the formatted
percentage suffix of the f-strings.  The result is `none` when the source
would raise (`entry_atr` still `None` when the dynamic stop is computed) —
the caller catches this and leaves the position untouched. -/
def timeLimitHit (entry_time : Option ℚ) (now : ℚ) : Bool :=
  match entry_time with
  | some t0 => decide ((now - t0) / 60 ≥ 10)
  | none => false

/-- Lines 141-142: `if current_price > self.max_price: self.max_price = ...`. -/
def updateMaxPrice (st : State) (current_price : ℚ) : State :=
  if current_price > st.max_price then { st with max_price := current_price } else st

/-- Lines 154-155: arm the trailing stop once net P&L reaches the dynamic
take-profit trigger. -/
def armTrailing (st : State) (net_pnl dynamic_tp_pct : ℚ) : State :=
  if !st.is_trailing ∧ net_pnl ≥ dynamic_tp_pct
  then { st with is_trailing := true } else st

def check_exit_signal (st : State) (entry_price current_price : ℚ)
    (entry_time : Option ℚ) (now : ℚ) : Option (State × Option String) :=
  if timeLimitHit entry_time now then some (st, some "TL_시간제한")
  else
    let raw_pnl := (current_price - entry_price) / entry_price
    let net_pnl := raw_pnl - 0.0005 * 2
    match st.entry_atr with
    | none => none
    | some ea =>
        let dynamic_sl_pct := max 0.002 (min 0.005 (ea / entry_price * 1.5))
        let dynamic_tp_pct := max 0.003 (min 0.008 (ea / entry_price * 2.5))
        let st1 := updateMaxPrice st current_price
        if net_pnl ≤ -dynamic_sl_pct then some (st1, some "SL_가변손절")
        else if st1.max_price ≥ entry_price * (1 + dynamic_tp_pct * 0.5)
                ∧ net_pnl < 0.0005 then
          some (st1, some "BE_본전보존")
        else
          let st2 := armTrailing st1 net_pnl dynamic_tp_pct
          if st2.is_trailing then
            let dynamic_callback := max 0.001 (min 0.003 (dynamic_tp_pct * 0.3))
            let drop_from_max := (st2.max_price - current_price) / st2.max_price
            if drop_from_max ≥ dynamic_callback then some (st2, some "TS_가변익절")
            else some (st2, none)
          else some (st2, none)

theorem updateMaxPrice_is_15m_uptrend (st : State) (c : ℚ) :
    (updateMaxPrice st c).is_15m_uptrend = st.is_15m_uptrend := by
  unfold updateMaxPrice; split <;> rfl

theorem armTrailing_is_15m_uptrend (st : State) (net tp : ℚ) :
    (armTrailing st net tp).is_15m_uptrend = st.is_15m_uptrend := by
  unfold armTrailing; split <;> rfl

end ScalpingStrategy

/-! ## Claim C7 (trend entry scenario) -/

/-- Indicator state for the spec's end-to-end scenario A: price `1005`,
short moving average `1000` above long moving average `990`, oscillator
`50`, VWAP below price, the coarser-timeframe flag set, and the stated
volume ratio `1.3`. -/
def scenarioA : ScalpingStrategy.State :=
  { ScalpingStrategy.init with
    rsi := some 50
    vwap := some 1000
    ma_5 := some 1000
    ma_20 := some 990
    volume_ratio := 1.3
    is_15m_uptrend := true
    atr := some 1 }

/-- C7 (code evidence): scenario A fails on the code.  At volume ratio
`1.3` the entry signal is `false`, because `check_signal` hardcodes the
strict threshold `volume_ratio > 1.3` (deliberately raised from the spec's
`1.2`, line 112) and accepts no override parameter at all — the repo's own
`tests/test_strategy_integration.py` still calls it with `ai_pred=` and a
`volume_multiplier` override, which the current signature rejects.  Ratio
`1.1` also gives `false`; only a ratio strictly above `1.3` (e.g. `1.4`)
gives `true`. -/
theorem trend_entry_scenario_a_fails :
    (ScalpingStrategy.check_signal scenarioA 1005).2 = false
    ∧ (ScalpingStrategy.check_signal { scenarioA with volume_ratio := 1.1 } 1005).2 = false
    ∧ (ScalpingStrategy.check_signal { scenarioA with volume_ratio := 1.4 } 1005).2 = true := by
  refine ⟨?_, ?_, ?_⟩ <;>
    norm_num [ScalpingStrategy.check_signal, scenarioA, ScalpingStrategy.init, optGt]

/-! ## Strategy manager (`src/strategy_manager.py`)

The manager owns the per-symbol records (`self.coin_data`, a dict:
`Sym → Option CoinData` here, so "at most one Position per symbol" is the
slot type itself), the pause flag and the account-protection counters.
Network effects are oracles: `fetch_ticker`/`fetch_balance` return their
value or the empty-dict sentinel (`Option`/plain ℚ), `create_order` in
dry-run mode always returns a synthetic order and in live mode returns the
oracle's verdict (`{}` on a caught error, per
`src/connector/exchange_base.py` lines 86-112); an uncaught-in-`try`
exception is the explicit `raises` flag.  Timestamps are seconds as ℚ.
`_check_market_sentiment` mixes a sample standard deviation (an irrational
square root) into `is_market_safe`; the flag's value is therefore supplied
as an oracle Boolean, and only its uses are modelled. -/

abbrev Sym := String

/-- The position dict created by `_execute_buy` (lines 317-322). -/
structure Position where
  entry_price : ℚ
  strategy_type : String
  state : String
  entry_time : ℚ
deriving Repr, DecidableEq

/-- One `self.coin_data[symbol]` record (lines 42-49): the single `'trend'`
strategy, the position slot, and the re-entry cooldown timestamp. -/
structure CoinData where
  trend : ScalpingStrategy.State
  position : Option Position
  last_sell_time : Option ℚ
deriving Repr, DecidableEq

namespace StrategyManager

/-- Mutable state of `StrategyManager` (plus the connector's dry-run flag). -/
structure State where
  symbols : List Sym
  coin_data : Sym → Option CoinData
  is_paused : Bool
  is_market_safe : Bool
  is_dry_run : Bool
  max_positions : ℕ
  daily_max_loss_pct : ℚ
  max_consecutive_losses : ℕ
  start_of_day_balance : ℚ
  current_consecutive_losses : ℕ
  daily_pnl_pct : ℚ

/-- Write one symbol's record into the dict. -/
def setCoin (s : State) (sym : Sym) (cd : CoinData) : State :=
  { s with coin_data := fun sym2 => if sym2 == sym then some cd else s.coin_data sym2 }

/-- `StrategyManager.__init__` (lines 21-54) for a given symbol list and
dry-run flag: not paused, market safe, five position slots, 2% daily loss
ceiling, 5-loss ceiling, zeroed balances and counters, and a fresh
`ScalpingStrategy` with an empty position slot per symbol. -/
def init (symbols : List Sym) (dry : Bool) : State :=
  { symbols := symbols
    coin_data := fun sym =>
      if symbols.contains sym then
        some { trend := ScalpingStrategy.init, position := none, last_sell_time := none }
      else none
    is_paused := false
    is_market_safe := true
    is_dry_run := dry
    max_positions := 5
    daily_max_loss_pct := 0.02
    max_consecutive_losses := 5
    start_of_day_balance := 0
    current_consecutive_losses := 0
    daily_pnl_pct := 0 }

/-- Character-list prefix test (for the free-text command match). -/
def leadsChars : List Char → List Char → Bool
  | [], _ => true
  | _ :: _, [] => false
  | a :: as, b :: bs => a == b && leadsChars as bs

/-- Character-list substring test. -/
def occursChars (needle : List Char) : List Char → Bool
  | [] => needle.isEmpty
  | b :: bs => leadsChars needle (b :: bs) || occursChars needle bs

/-- Python's `needle in hay` free-text containment on strings. -/
def containsText (hay needle : String) : Bool := occursChars needle.toList hay.toList

/-- `StrategyManager._process_commands` (lines 139-153).  An empty poll
result matches no keyword, so the early `if not cmd: return` is absorbed.
The pause keyword wins over resume when both occur; resume also clears the
consecutive-loss counter; the report keyword changes no state. -/
def process_commands (s : State) (cmd : String) : State :=
  if containsText cmd "종료" then { s with is_paused := true }
  else if containsText cmd "시작" then
    { s with is_paused := false, current_consecutive_losses := 0 }
  else s

/-- `StrategyManager._init_daily_balance` (lines 56-67), with the fetched
total KRW balance as oracle. -/
def init_daily_balance (s : State) (total_krw : ℚ) : State :=
  if s.start_of_day_balance = 0 ∨ total_krw > 0 then
    { s with
      start_of_day_balance := total_krw
      current_consecutive_losses := 0
      daily_pnl_pct := 0 }
  else s

/-- `StrategyManager._check_account_safety` (lines 69-99), with the fetched
current total KRW balance as oracle.  Returns
(new state, is-account-safe, halt-notification-sent).  The halt message is
sent only on the transition into the paused state (`if not self.is_paused`),
never repeated while already paused. -/
def check_account_safety (s : State) (current_total_krw : ℚ) :
    State × Bool × Bool :=
  if s.start_of_day_balance ≤ 0 then (s, true, false)
  else if s.max_consecutive_losses ≤ s.current_consecutive_losses then
    if !s.is_paused then ({ s with is_paused := true }, false, true)
    else (s, false, false)
  else
    let dp := (current_total_krw - s.start_of_day_balance) / s.start_of_day_balance
    let s1 := { s with daily_pnl_pct := dp }
    if dp ≤ -s.daily_max_loss_pct then
      if !s1.is_paused then ({ s1 with is_paused := true }, false, true)
      else (s1, false, false)
    else (s1, true, false)

/-- Oracle outcomes for the network calls inside `_execute_sell`:
the coin's free balance, whether the live `create_order` returned a
non-empty order, and whether some awaited call raised (the `except` path). -/
structure SellOracle where
  coin_free : ℚ
  order_ok : Bool
  raises : Bool
deriving Repr, DecidableEq

/-- `StrategyManager._execute_sell` (lines 260-299).  In dry-run the sold
amount is the fixed `1.0` and `create_order` always succeeds; in live mode
a zero balance or sub-minimum notional silently clears the slot, and an
EMPTY order result (`{}` — the connector's caught-error sentinel) falls
through the `if order:` block, so NOTHING is updated: the slot keeps the
record with `state = 'selling'`.  Only a raised exception reverts the state
to `'active'`.  On success: fee-adjusted pnl drives the consecutive-loss
counter, the strategy's trailing state is reset, the cooldown timestamp is
set and the slot is cleared. -/
def execute_sell (s : State) (sym : Sym) (tickerLast : ℚ) (pos : Position)
    (o : SellOracle) (now : ℚ) : State :=
  match s.coin_data sym with
  | none => s
  | some cd =>
      if o.raises then
        match cd.position with
        | some p => setCoin s sym { cd with position := some { p with state := "active" } }
        | none => s
      else
        let actual_amount : ℚ := if s.is_dry_run then 1 else o.coin_free
        if actual_amount ≤ 0 then setCoin s sym { cd with position := none }
        else if !s.is_dry_run && decide (actual_amount * tickerLast < 5050) then
          setCoin s sym { cd with position := none }
        else if s.is_dry_run || o.order_ok then
          let pnl := (tickerLast - pos.entry_price) / pos.entry_price * 100
          let net_pnl := pnl - 0.1
          let s1 := { s with current_consecutive_losses :=
            if net_pnl < 0 then s.current_consecutive_losses + 1 else 0 }
          setCoin s1 sym { cd with
            trend := ScalpingStrategy.reset_trailing_state cd.trend
            last_sell_time := some now
            position := none }
        else s

/-- Oracle outcomes for one `_check_position_exit` call: the ticker's last
price (`none` = empty dict on failure) and the sell oracles. -/
structure MonOracle where
  ticker : Option ℚ
  sell : SellOracle
deriving Repr, DecidableEq

/-- `StrategyManager._check_position_exit` (lines 172-186).  An empty
ticker aborts; the strategy's exit check both mutates the trailing state
and produces the exit reason (a `none` result is the strategy raising, the
`except` leaves everything as already mutated — here: untouched, since the
source raises before its first mutation).  On an exit reason the slot's
record is flipped to `'selling'` and `_execute_sell` runs. -/
def check_position_exit (s : State) (sym : Sym) (pos : Position) (now : ℚ)
    (o : MonOracle) : State :=
  match o.ticker with
  | none => s
  | some last =>
      match s.coin_data sym with
      | none => s
      | some cd =>
          match ScalpingStrategy.check_exit_signal cd.trend pos.entry_price last
              (some pos.entry_time) now with
          | none => s
          | some (st2, exit_type) =>
              match exit_type with
              | some _ =>
                  let selling := { pos with state := "selling" }
                  let s2 := setCoin s sym
                    { cd with trend := st2, position := some selling }
                  execute_sell s2 sym last selling o.sell now
              | none => setCoin s sym { cd with trend := st2 }

/-- The per-symbol body of `StrategyManager._monitor_positions_loop`
(lines 155-170): only records that hold a position NOT already in the
`'selling'` state are checked; the loop never reads `is_paused` (the source
comments that monitoring must continue while paused). -/
def monitor_sym (s : State) (sym : Sym) (now : ℚ) (o : MonOracle) : State :=
  match s.coin_data sym with
  | none => s
  | some cd =>
      match cd.position with
      | some pos =>
          if !(pos.state == "selling") then check_position_exit s sym pos now o
          else s
      | none => s

/-- One sweep of the monitor loop over all symbols. -/
def monitor_positions_iteration (s : State) (now : ℚ) (os : Sym → MonOracle) :
    State :=
  s.symbols.foldl (fun acc sym => monitor_sym acc sym now (os sym)) s

/-- Oracle outcomes for one `_process_trading_logic` call: ticker last
price, free KRW balance, and the live `create_order` verdict. -/
structure ScanOracle where
  ticker : Option ℚ
  krw_free : ℚ
  order_ok : Bool
deriving Repr, DecidableEq

/-- `sum(1 for s in self.symbols if self.coin_data[s]['position'] is not None)`
(line 304). -/
def countActive (s : State) : ℕ :=
  (s.symbols.filter (fun sym =>
    match s.coin_data sym with
    | some cd => cd.position.isSome
    | none => false)).length

/-- `StrategyManager._execute_buy` (lines 301-325).  Guards: concurrent
position cap, minimum notional `5050` on the split free balance; in
dry-run `create_order` always succeeds.  On success a fresh `'active'`
record is written into the symbol's slot.  Returns (state, bought?). -/
def execute_buy (s : State) (sym : Sym) (tickerLast : ℚ)
    (strategy_type : String) (o : ScanOracle) (now : ℚ) : State × Bool :=
  let active := countActive s
  if s.max_positions ≤ active then (s, false)
  else
    let remaining : ℕ := s.max_positions - active
    let invest := o.krw_free / (remaining : ℚ) * 0.98
    if invest < 5050 then (s, false)
    else if s.is_dry_run || o.order_ok then
      match s.coin_data sym with
      | none => (s, false)
      | some cd =>
          let newPos : Position :=
            { entry_price := tickerLast
              strategy_type := strategy_type
              state := "active"
              entry_time := now }
          (setCoin s sym { cd with position := some newPos }, true)
    else (s, false)

/-- `StrategyManager._process_trading_logic` (lines 240-258).  Returns
(state, entry-evaluated?, bought?).  A non-empty position slot, the 300 s
re-entry cooldown, an unsafe market flag or an empty ticker each abort
before any entry evaluation; otherwise the `'trend'` strategy's
`check_signal` runs (mutating its trailing state on success) and a `true`
signal triggers `_execute_buy`. -/
def process_trading_logic (s : State) (sym : Sym) (now : ℚ) (o : ScanOracle) :
    State × Bool × Bool :=
  match s.coin_data sym with
  | none => (s, false, false)
  | some cd =>
      if cd.position.isSome then (s, false, false)
      else if (match cd.last_sell_time with
               | some t => decide (now - t < 300)
               | none => false) then (s, false, false)
      else if !s.is_market_safe then (s, false, false)
      else
        match o.ticker with
        | none => (s, false, false)
        | some last =>
            let r := ScalpingStrategy.check_signal cd.trend last
            let s1 := setCoin s sym { cd with trend := r.1 }
            if r.2 then
              let b := execute_buy s1 sym last "trend" o now
              (b.1, true, b.2)
            else (s1, true, false)

/-- `StrategyManager._update_all_indicators` (lines 124-137): per symbol,
fetch up to 200 one-minute candles (oracle; `none` = fetch failure or
exception) and, given at least 30 bars, update the strategy's indicators —
passing ONLY the 1-minute series, so `update_indicators`' second parameter
keeps its `None` default. -/
def update_all_indicators (s : State) (fetch : Sym → Option (List Candle)) :
    State :=
  s.symbols.foldl (fun acc sym =>
    match fetch sym, acc.coin_data sym with
    | some oh, some cd =>
        if 30 ≤ oh.length then
          setCoin acc sym
            { cd with trend := ScalpingStrategy.update_indicators cd.trend oh none }
        else acc
    | _, _ => acc) s

/-- One iteration of the main loop body of `StrategyManager.start`
(lines 201-238), excluding the time-gated midnight re-initialization,
heartbeat and daily report (modelled as separate operations):
process commands, run the account-safety check, and — ONLY when neither
paused nor account-unsafe — refresh the market-sentiment flag (oracle),
optionally refresh indicators (the 60 s timer as an `Option` oracle), then
scan every symbol for entries.  Returns the state and the list of symbols
bought this iteration. -/
def main_loop_iteration (s : State) (cmd : String) (bal : ℚ) (now : ℚ)
    (marketSafe : Bool) (ind : Option (Sym → Option (List Candle)))
    (os : Sym → ScanOracle) : State × List Sym :=
  let s1 := process_commands s cmd
  let r := check_account_safety s1 bal
  if r.1.is_paused || !r.2.1 then (r.1, [])
  else
    let s3 := { r.1 with is_market_safe := marketSafe }
    let s4 := match ind with
      | some f => update_all_indicators s3 f
      | none => s3
    s4.symbols.foldl (fun acc sym =>
      let t := process_trading_logic acc.1 sym now (os sym)
      (t.1, if t.2.2 then acc.2 ++ [sym] else acc.2)) (s4, [])

end StrategyManager

/-! ## Helper lemmas about the manager's per-symbol dict -/

namespace StrategyManager

theorem setCoin_coin_data_self (s : State) (sym : Sym) (cd : CoinData) :
    (setCoin s sym cd).coin_data sym = some cd := by
  simp [setCoin]

theorem setCoin_coin_data_ne (s : State) (sym : Sym) (cd : CoinData)
    (sym2 : Sym) (h : (sym2 == sym) = false) :
    (setCoin s sym cd).coin_data sym2 = s.coin_data sym2 := by
  have hne : ¬sym2 = sym := by simpa using h
  simp [setCoin, hne]

theorem execute_buy_shape (s : State) (sym : Sym) (last : ℚ)
    (t : String) (o : ScanOracle) (now : ℚ) :
    (execute_buy s sym last t o now).1 = s
    ∨ ∃ cd2, (execute_buy s sym last t o now).1 = setCoin s sym cd2 := by
  simp only [execute_buy]
  repeat' split
  all_goals first
    | exact Or.inl rfl
    | exact Or.inr ⟨_, rfl⟩

theorem execute_buy_coin_data_ne (s : State) (sym : Sym) (last : ℚ)
    (t : String) (o : ScanOracle) (now : ℚ) (sym2 : Sym)
    (h : (sym2 == sym) = false) :
    (execute_buy s sym last t o now).1.coin_data sym2 = s.coin_data sym2 := by
  rcases execute_buy_shape s sym last t o now with h1 | ⟨cd2, h1⟩ <;> rw [h1]
  exact setCoin_coin_data_ne _ _ _ _ h

theorem process_trading_logic_coin_data_ne (s : State) (sym : Sym) (now : ℚ)
    (o : ScanOracle) (sym2 : Sym) (h : (sym2 == sym) = false) :
    (process_trading_logic s sym now o).1.coin_data sym2 = s.coin_data sym2 := by
  simp only [process_trading_logic]
  repeat' split
  all_goals first
    | rfl
    | exact setCoin_coin_data_ne _ _ _ _ h
    | (dsimp only
       rw [execute_buy_coin_data_ne _ _ _ _ _ _ _ h]
       exact setCoin_coin_data_ne _ _ _ _ h)

end StrategyManager

/-! ## Claim C1 (at most one position per symbol) -/

/-- C1: per-symbol position uniqueness.  The position slot is an
`Option Position` (so it is `none` or exactly one record by type), and the
scan step keeps it that way: (a) every non-empty slot survives a scan of
any symbol with its record's position unchanged (an occupied slot is never
overwritten); (b) when the scanned symbol's slot is occupied the scan is a
no-op that performs no entry evaluation; (c) a buy stores its new record
only if the scanned symbol's slot was empty. -/
theorem at_most_one_position_per_symbol (s : StrategyManager.State)
    (sym : Sym) (now : ℚ) (o : StrategyManager.ScanOracle) :
    (∀ sym2 cd, s.coin_data sym2 = some cd → cd.position.isSome = true →
        ∃ cd2,
          (StrategyManager.process_trading_logic s sym now o).1.coin_data sym2
            = some cd2 ∧ cd2.position = cd.position)
    ∧ (∀ cd, s.coin_data sym = some cd → cd.position.isSome = true →
        StrategyManager.process_trading_logic s sym now o = (s, false, false))
    ∧ ((StrategyManager.process_trading_logic s sym now o).2.2 = true →
        ∃ cd, s.coin_data sym = some cd ∧ cd.position = none) := by
  have skip : ∀ cd, s.coin_data sym = some cd → cd.position.isSome = true →
      StrategyManager.process_trading_logic s sym now o = (s, false, false) := by
    intro cd hcd hpos
    unfold StrategyManager.process_trading_logic
    rw [hcd]
    simp [hpos]
  refine ⟨?_, skip, ?_⟩
  · intro sym2 cd hcd hpos
    by_cases hsym : (sym2 == sym) = true
    · have hEq : sym2 = sym := by simpa using hsym
      subst hEq
      rw [skip cd hcd hpos]
      exact ⟨cd, hcd, rfl⟩
    · have hne : (sym2 == sym) = false := by
        simpa using hsym
      exact ⟨cd, by
        rw [StrategyManager.process_trading_logic_coin_data_ne _ _ _ _ _ hne]
        exact hcd, rfl⟩
  · intro hb
    cases hc : s.coin_data sym with
    | none =>
        exfalso
        unfold StrategyManager.process_trading_logic at hb
        rw [hc] at hb
        simp at hb
    | some cd =>
        refine ⟨cd, rfl, ?_⟩
        cases hp : cd.position with
        | none => rfl
        | some p =>
            exfalso
            have hskip := skip cd hc (by rw [hp]; rfl)
            rw [hskip] at hb
            simp at hb

/-- Witness for C1: a manager whose `BTC/KRW` slot is occupied; the scan of
that symbol is a no-op with no entry evaluation and no buy. -/
theorem at_most_one_position_per_symbol_witness :
    StrategyManager.process_trading_logic
        (StrategyManager.setCoin (StrategyManager.init ["BTC/KRW"] true) "BTC/KRW"
          { trend := ScalpingStrategy.init
            position := some { entry_price := 100, strategy_type := "trend",
                               state := "active", entry_time := 0 }
            last_sell_time := none })
        "BTC/KRW" 0 { ticker := none, krw_free := 0, order_ok := false }
      = (StrategyManager.setCoin (StrategyManager.init ["BTC/KRW"] true) "BTC/KRW"
          { trend := ScalpingStrategy.init
            position := some { entry_price := 100, strategy_type := "trend",
                               state := "active", entry_time := 0 }
            last_sell_time := none }, false, false) :=
  (at_most_one_position_per_symbol _ "BTC/KRW" 0 _).2.1 _
    (StrategyManager.setCoin_coin_data_self _ _ _) rfl

/-! ## Helper lemmas: the monitor loop never reads or writes `is_paused` -/

namespace StrategyManager

theorem setCoin_is_paused (s : State) (sym : Sym) (cd : CoinData) (b : Bool) :
    setCoin { s with is_paused := b } sym cd
      = { setCoin s sym cd with is_paused := b } := rfl

theorem execute_sell_is_paused (s : State) (sym : Sym) (last : ℚ)
    (pos : Position) (o : SellOracle) (now : ℚ) (b : Bool) :
    execute_sell { s with is_paused := b } sym last pos o now
      = { execute_sell s sym last pos o now with is_paused := b } := by
  dsimp only [execute_sell, setCoin]
  repeat' split
  all_goals rfl

theorem check_position_exit_is_paused (s : State) (sym : Sym)
    (pos : Position) (now : ℚ) (o : MonOracle) (b : Bool) :
    check_position_exit { s with is_paused := b } sym pos now o
      = { check_position_exit s sym pos now o with is_paused := b } := by
  dsimp only [check_position_exit]
  repeat' split
  all_goals first
    | rfl
    | (rw [setCoin_is_paused]; exact execute_sell_is_paused _ _ _ _ _ _ _)

theorem monitor_sym_is_paused (s : State) (sym : Sym) (now : ℚ)
    (o : MonOracle) (b : Bool) :
    monitor_sym { s with is_paused := b } sym now o
      = { monitor_sym s sym now o with is_paused := b } := by
  dsimp only [monitor_sym]
  repeat' split
  all_goals first
    | rfl
    | exact check_position_exit_is_paused _ _ _ _ _ _

theorem monitor_foldl_is_paused (l : List Sym) (s : State) (now : ℚ)
    (os : Sym → MonOracle) (b : Bool) :
    List.foldl (fun acc sym => monitor_sym acc sym now (os sym))
        { s with is_paused := b } l
      = { List.foldl (fun acc sym => monitor_sym acc sym now (os sym)) s l
          with is_paused := b } := by
  induction l generalizing s with
  | nil => rfl
  | cons x xs ih =>
      simp only [List.foldl_cons]
      rw [monitor_sym_is_paused]
      exact ih _

theorem monitor_positions_iteration_is_paused (s : State) (now : ℚ)
    (os : Sym → MonOracle) (b : Bool) :
    monitor_positions_iteration { s with is_paused := b } now os
      = { monitor_positions_iteration s now os with is_paused := b } := by
  dsimp only [monitor_positions_iteration]
  exact monitor_foldl_is_paused _ _ _ _ _

end StrategyManager

/-! ## Claim C2 (halting blocks entries only, never exits) -/

/-- C2: when the account-safety check leaves the manager paused, or reports
the account unsafe, the whole scan phase of that main-loop iteration is
skipped — no symbol's entry logic runs, so no buy order is initiated and
the state after the iteration is exactly the post-check state with an empty
buy list.  The monitor loop, by contrast, is completely insensitive to the
pause flag: flipping `is_paused` commutes with an entire monitor sweep, so
open positions keep being checked and may still be exited while halted. -/
theorem halt_blocks_entries_not_exits (s : StrategyManager.State)
    (cmd : String) (bal now : ℚ) (marketSafe : Bool)
    (ind : Option (Sym → Option (List Candle)))
    (os : Sym → StrategyManager.ScanOracle) :
    ((StrategyManager.check_account_safety
          (StrategyManager.process_commands s cmd) bal).1.is_paused = true
      ∨ (StrategyManager.check_account_safety
          (StrategyManager.process_commands s cmd) bal).2.1 = false →
      StrategyManager.main_loop_iteration s cmd bal now marketSafe ind os
        = ((StrategyManager.check_account_safety
            (StrategyManager.process_commands s cmd) bal).1, []))
    ∧ (∀ (b : Bool) (now2 : ℚ) (mos : Sym → StrategyManager.MonOracle),
        StrategyManager.monitor_positions_iteration
            { s with is_paused := b } now2 mos
          = { StrategyManager.monitor_positions_iteration s now2 mos
              with is_paused := b }) := by
  constructor
  · intro h
    unfold StrategyManager.main_loop_iteration
    rcases h with h | h <;> simp [h]
  · intro b now2 mos
    exact StrategyManager.monitor_positions_iteration_is_paused _ _ _ _

/-- Witness for C2: a paused manager (pause keyword just received, balance
unchanged, no losses) skips the scan phase entirely. -/
theorem halt_blocks_entries_not_exits_witness :
    StrategyManager.main_loop_iteration
        { StrategyManager.init ["BTC/KRW"] true with start_of_day_balance := 1000000 }
        "종료" 1000000 0 true none
        (fun _ => { ticker := none, krw_free := 0, order_ok := false })
      = ((StrategyManager.check_account_safety
          (StrategyManager.process_commands
            { StrategyManager.init ["BTC/KRW"] true with start_of_day_balance := 1000000 }
            "종료") 1000000).1, []) :=
  (halt_blocks_entries_not_exits _ "종료" 1000000 0 true none _).1
    (Or.inl (by
      norm_num [StrategyManager.check_account_safety,
        StrategyManager.process_commands, StrategyManager.init,
        StrategyManager.containsText, StrategyManager.occursChars,
        StrategyManager.leadsChars]))

/-! ## Claims C4 and C5 (account-protection circuit breaker) -/

/-- One closed dry-run trade on `BTC/KRW`, entered at `100` and sold at the
given last price: `pnl% = (last - 100)/100·100`, `net = pnl% - 0.1`. -/
def closedTrade (s : StrategyManager.State) (last : ℚ) : StrategyManager.State :=
  StrategyManager.execute_sell s "BTC/KRW" last
    { entry_price := 100, strategy_type := "trend", state := "selling", entry_time := 0 }
    { coin_free := 1, order_ok := true, raises := false } 0

/-- A fresh dry-run manager for `BTC/KRW` with the session-start balance
recorded as `1,000,000`. -/
def breakerStart : StrategyManager.State :=
  { StrategyManager.init ["BTC/KRW"] true with start_of_day_balance := 1000000 }

/-- C4: circuit breaker on consecutive losses.  Selling at `90` from entry
`100` gives net P&L `-10.1% < 0` (a loss); after four such trades the
safety check still reports safe and unpaused; the fifth flips the manager
from SAFE to HALTED (paused, unsafe, halt notification sent); a sixth
losing trade leaves it HALTED (and no new notification); the resume
command `"시작"` un-pauses and zeroes the consecutive-loss counter; one
winning trade (sell at `120`, net `+19.9%`) leaves the counter at `0`. -/
theorem circuit_breaker_consecutive_losses :
    (closedTrade (closedTrade (closedTrade (closedTrade breakerStart 90) 90) 90) 90).current_consecutive_losses = 4
    ∧ (StrategyManager.check_account_safety
        (closedTrade (closedTrade (closedTrade (closedTrade breakerStart 90) 90) 90) 90) 1000000).2.1 = true
    ∧ (StrategyManager.check_account_safety
        (closedTrade (closedTrade (closedTrade (closedTrade breakerStart 90) 90) 90) 90) 1000000).1.is_paused = false
    ∧ (closedTrade (StrategyManager.check_account_safety
        (closedTrade (closedTrade (closedTrade (closedTrade breakerStart 90) 90) 90) 90) 1000000).1 90).current_consecutive_losses = 5
    ∧ (StrategyManager.check_account_safety (closedTrade (StrategyManager.check_account_safety
        (closedTrade (closedTrade (closedTrade (closedTrade breakerStart 90) 90) 90) 90) 1000000).1 90) 1000000)
        = ({ closedTrade (StrategyManager.check_account_safety
              (closedTrade (closedTrade (closedTrade (closedTrade breakerStart 90) 90) 90) 90) 1000000).1 90
             with is_paused := true }, false, true)
    ∧ (StrategyManager.check_account_safety (closedTrade { closedTrade (StrategyManager.check_account_safety
          (closedTrade (closedTrade (closedTrade (closedTrade breakerStart 90) 90) 90) 90) 1000000).1 90
          with is_paused := true } 90) 1000000).1.is_paused = true
    ∧ (StrategyManager.check_account_safety (closedTrade { closedTrade (StrategyManager.check_account_safety
          (closedTrade (closedTrade (closedTrade (closedTrade breakerStart 90) 90) 90) 90) 1000000).1 90
          with is_paused := true } 90) 1000000).2.2 = false
    ∧ (closedTrade { closedTrade (StrategyManager.check_account_safety
          (closedTrade (closedTrade (closedTrade (closedTrade breakerStart 90) 90) 90) 90) 1000000).1 90
          with is_paused := true } 90).current_consecutive_losses = 6
    ∧ (StrategyManager.process_commands (closedTrade { closedTrade (StrategyManager.check_account_safety
          (closedTrade (closedTrade (closedTrade (closedTrade breakerStart 90) 90) 90) 90) 1000000).1 90
          with is_paused := true } 90) "시작").is_paused = false
    ∧ (StrategyManager.process_commands (closedTrade { closedTrade (StrategyManager.check_account_safety
          (closedTrade (closedTrade (closedTrade (closedTrade breakerStart 90) 90) 90) 90) 1000000).1 90
          with is_paused := true } 90) "시작").current_consecutive_losses = 0
    ∧ (closedTrade (StrategyManager.process_commands (closedTrade { closedTrade (StrategyManager.check_account_safety
          (closedTrade (closedTrade (closedTrade (closedTrade breakerStart 90) 90) 90) 90) 1000000).1 90
          with is_paused := true } 90) "시작") 120).current_consecutive_losses = 0 := by
  norm_num +decide [closedTrade, breakerStart, StrategyManager.execute_sell,
    StrategyManager.setCoin, StrategyManager.init,
    StrategyManager.check_account_safety, StrategyManager.process_commands,
    StrategyManager.containsText, StrategyManager.occursChars,
    StrategyManager.leadsChars, ScalpingStrategy.reset_trailing_state]

/-- C5: daily-loss halt notifies exactly once.  With session-start balance
`1,000,000` and current balance `975,000` the daily P&L is `-2.5% ≤ -2%`:
the first safety check pauses the manager, reports unsafe and sends the
halt notification; running the check again in the resulting (already
paused) state reports unsafe again but sends NO further notification and
changes nothing. -/
theorem daily_loss_halt_notifies_once :
    StrategyManager.check_account_safety breakerStart 975000
      = ({ breakerStart with is_paused := true, daily_pnl_pct := -0.025 },
         false, true)
    ∧ StrategyManager.check_account_safety
        { breakerStart with is_paused := true, daily_pnl_pct := -0.025 } 975000
      = ({ breakerStart with is_paused := true, daily_pnl_pct := -0.025 },
         false, false) := by
  constructor
  · norm_num [StrategyManager.check_account_safety, breakerStart,
      StrategyManager.init]
  · norm_num [StrategyManager.check_account_safety, breakerStart,
      StrategyManager.init]

/-! ## Claim C6 (exit-order failure handling) -/

/-- A live-mode (not dry-run) manager holding one open `BTC/KRW` position,
entered at `100000` at time `0`. -/
def stuckStart : StrategyManager.State :=
  StrategyManager.setCoin (StrategyManager.init ["BTC/KRW"] false) "BTC/KRW"
    { trend := ScalpingStrategy.init
      position := some { entry_price := 100000, strategy_type := "trend",
                         state := "active", entry_time := 0 }
      last_sell_time := none }

/-- Monitor-cycle oracles at which the exit fires but the sell order FAILS
with the connector's empty-dict sentinel (`create_order` catches the
exchange error and returns `{}`; nothing is raised). -/
def stuckOracle : StrategyManager.MonOracle :=
  { ticker := some 100000
    sell := { coin_free := 1, order_ok := false, raises := false } }

/-- The `BTC/KRW` record after that failed exit attempt: still holding the
position, now frozen in the `'selling'` state. -/
def stuckRecord : CoinData :=
  { trend := ScalpingStrategy.init
    position := some { entry_price := 100000, strategy_type := "trend",
                       state := "selling", entry_time := 0 }
    last_sell_time := none }

/-- C6 (code evidence): when the sell order fails via the empty sentinel,
the position is NOT reverted to `'active'`.  At time `600` s the 10-minute
limit forces an exit, the record is flipped to `'selling'` and
`_execute_sell` runs; the empty order result falls through `if order:`
leaving the record in `'selling'` (first conjunct), and every later monitor
cycle skips it — the state is a fixed point of the monitor step for all
times and oracles (second conjunct), so the position is stuck with no
further monitoring.  Only the raising failure mode is handled: the same
sell attempt with an exception reverts the state to `'active'` (third
conjunct). -/
theorem exit_order_failure_leaves_selling :
    (StrategyManager.monitor_sym stuckStart "BTC/KRW" 600 stuckOracle).coin_data
        "BTC/KRW" = some stuckRecord
    ∧ (∀ (now2 : ℚ) (o2 : StrategyManager.MonOracle),
        StrategyManager.monitor_sym
            (StrategyManager.monitor_sym stuckStart "BTC/KRW" 600 stuckOracle)
            "BTC/KRW" now2 o2
          = StrategyManager.monitor_sym stuckStart "BTC/KRW" 600 stuckOracle)
    ∧ (StrategyManager.execute_sell
          (StrategyManager.monitor_sym stuckStart "BTC/KRW" 600 stuckOracle)
          "BTC/KRW" 100000
          { entry_price := 100000, strategy_type := "trend",
            state := "selling", entry_time := 0 }
          { coin_free := 1, order_ok := false, raises := true } 600).coin_data
        "BTC/KRW"
      = some { stuckRecord with
          position := some { entry_price := 100000, strategy_type := "trend",
                             state := "active", entry_time := 0 } } := by
  refine ⟨?_, ?_, ?_⟩ <;>
    (intros
     norm_num +decide [stuckStart, stuckOracle, stuckRecord,
       StrategyManager.monitor_sym, StrategyManager.check_position_exit,
       StrategyManager.execute_sell, StrategyManager.setCoin,
       StrategyManager.init, ScalpingStrategy.check_exit_signal,
       ScalpingStrategy.timeLimitHit, ScalpingStrategy.updateMaxPrice,
       ScalpingStrategy.armTrailing, ScalpingStrategy.init])

/-! ## Event-level model of a whole engine run (for claim C3)

A run of `StrategyManager.start` plus the concurrent monitor loop is a
sequence of the six operations below, interleaved arbitrarily (the asyncio
scheduling and every timer gate are over-approximated: each operation may
fire at any time, with any oracle outcomes).  `refresh` is
`_update_all_indicators`, which passes only the 1-minute series to
`update_indicators` — exactly the manager's one-argument call. -/
inductive Ev where
  | scan (sym : Sym) (now : ℚ) (o : StrategyManager.ScanOracle)
  | monitor (sym : Sym) (now : ℚ) (o : StrategyManager.MonOracle)
  | refresh (fetch : Sym → Option (List Candle))
  | command (cmd : String)
  | safety (bal : ℚ)
  | initDaily (total : ℚ)

/-- One engine operation; the Boolean records whether a buy was executed. -/
def stepEv (s : StrategyManager.State) : Ev → StrategyManager.State × Bool
  | .scan sym now o =>
      ((StrategyManager.process_trading_logic s sym now o).1,
       (StrategyManager.process_trading_logic s sym now o).2.2)
  | .monitor sym now o => (StrategyManager.monitor_sym s sym now o, false)
  | .refresh f => (StrategyManager.update_all_indicators s f, false)
  | .command c => (StrategyManager.process_commands s c, false)
  | .safety b => ((StrategyManager.check_account_safety s b).1, false)
  | .initDaily t => (StrategyManager.init_daily_balance s t, false)

/-- Run a sequence of engine operations; the Boolean records whether ANY
buy was executed along the run. -/
def runEv : StrategyManager.State → List Ev → StrategyManager.State × Bool
  | s, [] => (s, false)
  | s, e :: rest =>
      let t := stepEv s e
      let r := runEv t.1 rest
      (r.1, t.2 || r.2)

/-- The C3 invariant: no strategy instance ever has its 15-minute uptrend
flag set. -/
def NoUptrend (s : StrategyManager.State) : Prop :=
  ∀ sym cd, s.coin_data sym = some cd → cd.trend.is_15m_uptrend = false

namespace ScalpingStrategy

theorem check_signal_of_no_uptrend (st : State) (last : ℚ)
    (h : st.is_15m_uptrend = false) : check_signal st last = (st, false) := by
  unfold check_signal
  cases st.rsi <;> cases st.vwap <;> simp [h]

theorem update_indicators_none_is_15m_uptrend (st : State) (l : List Candle) :
    (update_indicators st l none).is_15m_uptrend = st.is_15m_uptrend := by
  unfold update_indicators
  split <;> rfl

theorem check_exit_signal_is_15m_uptrend (st : State) (e c : ℚ)
    (t : Option ℚ) (n : ℚ) (st2 : State) (x : Option String)
    (h : check_exit_signal st e c t n = some (st2, x)) :
    st2.is_15m_uptrend = st.is_15m_uptrend := by
  unfold check_exit_signal at h
  repeat' split at h
  all_goals repeat'
    (rw [ite_eq_iff] at h
     rcases h with ⟨-, h⟩ | ⟨-, h⟩)
  all_goals cases h
  all_goals first
    | rfl
    | (rw [armTrailing_is_15m_uptrend, updateMaxPrice_is_15m_uptrend])
    | (rw [updateMaxPrice_is_15m_uptrend])

end ScalpingStrategy

namespace StrategyManager

theorem noUptrend_setCoin (s : State) (sym : Sym) (cd : CoinData)
    (hs : NoUptrend s) (hcd : cd.trend.is_15m_uptrend = false) :
    NoUptrend (setCoin s sym cd) := by
  intro sym2 cd2 h2
  unfold setCoin at h2
  dsimp only at h2
  by_cases hb : (sym2 == sym) = true
  · rw [if_pos hb] at h2
    cases h2
    exact hcd
  · rw [if_neg hb] at h2
    exact hs sym2 cd2 h2

theorem execute_sell_no_uptrend (s : State) (sym : Sym) (last : ℚ)
    (pos : Position) (o : SellOracle) (now : ℚ) (hs : NoUptrend s) :
    NoUptrend (execute_sell s sym last pos o now) := by
  unfold execute_sell
  cases hc : s.coin_data sym with
  | none => exact hs
  | some cd =>
      have hu := hs sym cd hc
      dsimp only
      repeat' split
      all_goals first
        | exact hs
        | exact noUptrend_setCoin _ _ _ hs hu

theorem check_position_exit_no_uptrend (s : State) (sym : Sym)
    (pos : Position) (now : ℚ) (o : MonOracle) (hs : NoUptrend s) :
    NoUptrend (check_position_exit s sym pos now o) := by
  unfold check_position_exit
  cases ht : o.ticker with
  | none => exact hs
  | some last =>
      dsimp only
      cases hc : s.coin_data sym with
      | none => exact hs
      | some cd =>
          have hu := hs sym cd hc
          dsimp only
          cases hx : ScalpingStrategy.check_exit_signal cd.trend pos.entry_price
              last (some pos.entry_time) now with
          | none => exact hs
          | some pr =>
              obtain ⟨st2, xt⟩ := pr
              have hfl : st2.is_15m_uptrend = false := by
                rw [ScalpingStrategy.check_exit_signal_is_15m_uptrend cd.trend
                  pos.entry_price last (some pos.entry_time) now st2 xt hx]
                exact hu
              dsimp only
              cases xt with
              | some et =>
                  exact execute_sell_no_uptrend _ _ _ _ _ _
                    (noUptrend_setCoin _ _ _ hs hfl)
              | none => exact noUptrend_setCoin _ _ _ hs hfl

theorem monitor_sym_no_uptrend (s : State) (sym : Sym) (now : ℚ)
    (o : MonOracle) (hs : NoUptrend s) :
    NoUptrend (monitor_sym s sym now o) := by
  unfold monitor_sym
  cases hc : s.coin_data sym with
  | none => exact hs
  | some cd =>
      dsimp only
      cases cd.position with
      | none => exact hs
      | some pos =>
          dsimp only
          split
          · exact check_position_exit_no_uptrend _ _ _ _ _ hs
          · exact hs

theorem update_all_indicators_no_uptrend (s : State)
    (f : Sym → Option (List Candle)) (hs : NoUptrend s) :
    NoUptrend (update_all_indicators s f) := by
  unfold update_all_indicators
  have aux : ∀ (l : List Sym) (s0 : State), NoUptrend s0 →
      NoUptrend (List.foldl (fun acc sym =>
        match f sym, acc.coin_data sym with
        | some oh, some cd =>
            if 30 ≤ oh.length then
              setCoin acc sym
                { cd with trend := ScalpingStrategy.update_indicators cd.trend oh none }
            else acc
        | _, _ => acc) s0 l) := by
    intro l
    induction l with
    | nil => intro s0 h0; exact h0
    | cons x xs ih =>
        intro s0 h0
        simp only [List.foldl_cons]
        apply ih
        cases hf : f x with
        | none => exact h0
        | some oh =>
            cases hc : s0.coin_data x with
            | none => exact h0
            | some cd =>
                dsimp only
                split
                · apply noUptrend_setCoin _ _ _ h0
                  rw [ScalpingStrategy.update_indicators_none_is_15m_uptrend]
                  exact h0 x cd hc
                · exact h0
  exact aux _ _ hs

theorem process_commands_coin_data (s : State) (cmd : String) :
    (process_commands s cmd).coin_data = s.coin_data := by
  unfold process_commands
  split_ifs <;> rfl

theorem check_account_safety_coin_data (s : State) (bal : ℚ) :
    (check_account_safety s bal).1.coin_data = s.coin_data := by
  unfold check_account_safety
  dsimp only
  repeat' split
  all_goals rfl

theorem init_daily_balance_coin_data (s : State) (total : ℚ) :
    (init_daily_balance s total).coin_data = s.coin_data := by
  unfold init_daily_balance
  split_ifs <;> rfl

theorem scan_shape_of_no_uptrend (s : State) (sym : Sym) (now : ℚ)
    (o : ScanOracle) (hs : NoUptrend s) :
    process_trading_logic s sym now o = (s, false, false)
    ∨ ∃ cd, s.coin_data sym = some cd
        ∧ process_trading_logic s sym now o = (setCoin s sym cd, true, false) := by
  unfold process_trading_logic
  cases hc : s.coin_data sym with
  | none => exact Or.inl rfl
  | some cd =>
      have hu := hs sym cd hc
      dsimp only
      split
      · exact Or.inl rfl
      · split
        · exact Or.inl rfl
        · split
          · exact Or.inl rfl
          · cases ht : o.ticker with
            | none => exact Or.inl rfl
            | some last =>
                dsimp only
                refine Or.inr ⟨cd, rfl, ?_⟩
                rw [ScalpingStrategy.check_signal_of_no_uptrend cd.trend last hu]
                simp

end StrategyManager

theorem stepEv_no_uptrend (s : StrategyManager.State) (e : Ev)
    (hs : NoUptrend s) :
    NoUptrend (stepEv s e).1 ∧ (stepEv s e).2 = false := by
  cases e with
  | scan sym now o =>
      rcases StrategyManager.scan_shape_of_no_uptrend s sym now o hs with
        h | ⟨cd, hc, h⟩ <;> simp only [stepEv, h]
      · exact ⟨hs, trivial⟩
      · exact ⟨StrategyManager.noUptrend_setCoin _ _ _ hs (hs sym cd hc), trivial⟩
  | monitor sym now o =>
      exact ⟨StrategyManager.monitor_sym_no_uptrend _ _ _ _ hs, rfl⟩
  | refresh f =>
      exact ⟨StrategyManager.update_all_indicators_no_uptrend _ _ hs, rfl⟩
  | command c =>
      refine ⟨?_, rfl⟩
      intro sym2 cd2 h2
      rw [stepEv, StrategyManager.process_commands_coin_data] at h2
      exact hs sym2 cd2 h2
  | safety b =>
      refine ⟨?_, rfl⟩
      intro sym2 cd2 h2
      rw [stepEv, StrategyManager.check_account_safety_coin_data] at h2
      exact hs sym2 cd2 h2
  | initDaily t =>
      refine ⟨?_, rfl⟩
      intro sym2 cd2 h2
      rw [stepEv, StrategyManager.init_daily_balance_coin_data] at h2
      exact hs sym2 cd2 h2

theorem runEv_no_uptrend (evs : List Ev) (s : StrategyManager.State)
    (hs : NoUptrend s) :
    NoUptrend (runEv s evs).1 ∧ (runEv s evs).2 = false := by
  induction evs generalizing s with
  | nil => exact ⟨hs, rfl⟩
  | cons e rest ih =>
      have h1 := stepEv_no_uptrend s e hs
      have h2 := ih (stepEv s e).1 h1.1
      unfold runEv
      dsimp only
      exact ⟨h2.1, by simp [h1.2, h2.2]⟩

theorem init_no_uptrend (symbols : List Sym) (dry : Bool) :
    NoUptrend (StrategyManager.init symbols dry) := by
  intro sym cd h
  unfold StrategyManager.init at h
  dsimp only at h
  split at h
  · cases h
    rfl
  · cases h

/-! ## Claim C3 (the 15m flag is never set, so the manager never buys) -/

/-- C3: under the manager's wiring, `_update_all_indicators` invokes
`update_indicators` with only the 1-minute series, so `is_15m_uptrend`
(initialized `False`) stays `False` in every record reachable by any
interleaving of scans, monitor cycles, indicator refreshes, commands,
safety checks and daily re-initializations; consequently every
`check_signal` call the manager makes returns `False` and no run ever
executes a buy. -/
theorem manager_never_buys (symbols : List Sym) (dry : Bool) (evs : List Ev) :
    (runEv (StrategyManager.init symbols dry) evs).2 = false
    ∧ ∀ sym cd,
        (runEv (StrategyManager.init symbols dry) evs).1.coin_data sym = some cd →
        cd.trend.is_15m_uptrend = false :=
  ⟨(runEv_no_uptrend evs _ (init_no_uptrend symbols dry)).2,
   fun sym cd h => (runEv_no_uptrend evs _ (init_no_uptrend symbols dry)).1 sym cd h⟩

/-- Witness for C3: the empty run from the single-symbol initial state. -/
theorem manager_never_buys_witness :
    (runEv (StrategyManager.init ["BTC/KRW"] true) []).2 = false
    ∧ ({ trend := ScalpingStrategy.init, position := none,
         last_sell_time := none } : CoinData).trend.is_15m_uptrend = false :=
  ⟨(manager_never_buys ["BTC/KRW"] true []).1,
   (manager_never_buys ["BTC/KRW"] true []).2 "BTC/KRW" _ (by decide)⟩

end Coin
